import Mathlib

/-!
Shallow embedding of `release/lts/create_release_notes.py` from the Blender
repository, together with proofs of the specified properties of its `main_run`
entry point.

The script parses three command line flags (`--version`, `--issue`,
`--format`), resolves the issue identifier from a fixed version-prefix table
when `--issue` is falsy, optionally prints a download URL block (html format
only) followed by a blank line, and finally delegates to
`lts_issue.print_notes`.  Python strings are modelled as `List Char`; the
observable behaviour of a run is the ordered trace of collaborator calls and
direct prints, plus either the return value of `main_run` or the raised
`ValueError` message.
-/

/-- Python strings are modelled as lists of characters. -/
abbrev PyStr := List Char

/-- View of a Lean string literal as the model of a Python string. -/
def str (s : String) : PyStr := s.data

/-- Python truthiness of the optional `args.issue` value, as tested by
`if not issue:` in the source: `None` and the empty string are falsy. -/
def pyTruthy : Option PyStr → Bool
  | none => false
  | some s => !s.isEmpty

/-- Python `version.startswith(pre)`. -/
def startswith (s pre : PyStr) : Bool := pre.isPrefixOf s

/-- Observable side effects of a run of `main_run`: a call to
`lts_download.print_urls`, a direct `print` of a line, or a call to
`lts_issue.print_notes`. -/
inductive Event where
  | urls (version : PyStr)
  | line (s : PyStr)
  | notes (version format issue : PyStr)
deriving DecidableEq

/-- The three command line arguments after `argparse` has run: `--version`
is required, `--issue` is optional (`none` when absent), `--format` always
carries a value because of its default. -/
structure Args where
  version : PyStr
  issue : Option PyStr
  format : PyStr
deriving DecidableEq

/-- The `argparse` layer of `main_run`: `--format` receives the default value
`"text"` when the flag is not supplied. -/
def parseArgs (version : PyStr) (issue : Option PyStr) (format : Option PyStr) : Args :=
  { version := version, issue := issue, format := format.getD (str "text") }

/-- Message of the `ValueError` raised by `main_run` when no issue can be
determined. -/
def valueErrorMsg : PyStr :=
  str "Specify --issue or update script to include issue number for this version"

/-- Lines 39-53 of the source: the issue used by `main_run`.  A truthy
`args.issue` is kept verbatim; otherwise the version is matched against the
five fixed literal prefixes in source order, first match wins; `none` means
the `ValueError` is raised. -/
def resolvedIssue (issue : Option PyStr) (version : PyStr) : Option PyStr :=
  if pyTruthy issue then issue
  else if startswith version (str "2.83.") then some (str "#77348")
  else if startswith version (str "2.93.") then some (str "#88449")
  else if startswith version (str "3.3.") then some (str "#100749")
  else if startswith version (str "3.6.") then some (str "#109399")
  else if startswith version (str "4.2.") then some (str "#124452")
  else none

/-- The body of `main_run` after argument parsing.  It returns the trace of
collaborator calls and prints, paired with either the return value of the
Python function (`none`, i.e. Python `None`, since `main_run` has no `return`
statement) or, on the `raise` path, the `ValueError` message. -/
def main_run (args : Args) : List Event × Except PyStr (Option Int) :=
  match resolvedIssue args.issue args.version with
  | none => ([], Except.error valueErrorMsg)
  | some issue =>
      ((if args.format = str "html" then [Event.urls args.version, Event.line []] else []) ++
        [Event.notes args.version args.format issue],
       Except.ok none)

/-- Python `sys.exit(x)` exit-code semantics for the values `main_run` can
return: `None` yields process exit code `0`, an integer is used as is. -/
def sysExitCode : Option Int → Int
  | none => 0
  | some n => n

/-- The `if __name__ == "__main__": sys.exit(main_run())` boundary: on a
successful run the return value of `main_run` becomes the process exit code,
and the `ValueError` propagates. -/
def script_run (args : Args) : List Event × Except PyStr Int :=
  match main_run args with
  | (tr, Except.ok r) => (tr, Except.ok (sysExitCode r))
  | (tr, Except.error e) => (tr, Except.error e)

/-- Recognizer for `lts_issue.print_notes` calls in a trace. -/
def isNotes : Event → Bool
  | Event.notes _ _ _ => true
  | _ => false

/-- Two incomparable literal strings can never both be prefixes of the same
version string, so at most one branch of the first-match chain in `main_run`
fires. -/
theorem startswith_false_of_startswith (p q v : PyStr)
    (h1 : p.isPrefixOf q = false) (h2 : q.isPrefixOf p = false)
    (hq : startswith v q = true) : startswith v p = false := by
  cases hvp : startswith v p
  · rfl
  · exfalso
    simp only [startswith, List.isPrefixOf_iff_prefix] at hq hvp
    rcases List.prefix_or_prefix_of_prefix hvp hq with h | h
    · rw [← List.isPrefixOf_iff_prefix] at h
      rw [h1] at h
      exact Bool.noConfusion h
    · rw [← List.isPrefixOf_iff_prefix] at h
      rw [h2] at h
      exact Bool.noConfusion h

/-- Characterization of a successful run of `main_run`: the issue resolved,
`main_run` returns `None`, and the trace is the optional URL block followed by
the single notes call. -/
theorem main_ok {a : Args} {tr : List Event} {r : Option Int}
    (h : main_run a = (tr, Except.ok r)) :
    ∃ iss, resolvedIssue a.issue a.version = some iss ∧ r = none ∧
      tr = (if a.format = str "html" then [Event.urls a.version, Event.line []] else []) ++
        [Event.notes a.version a.format iss] := by
  rcases hres : resolvedIssue a.issue a.version with _ | iss
  · simp only [main_run, hres] at h
    rw [Prod.mk.injEq] at h
    exact absurd h.2 (by simp)
  · simp only [main_run, hres] at h
    rw [Prod.mk.injEq] at h
    obtain ⟨h1, h2⟩ := h
    injection h2 with h2
    exact ⟨iss, rfl, h2.symm, h1.symm⟩

/-- Characterization of a failing run of `main_run`: the issue did not resolve,
the trace is empty and the error carries the fixed message. -/
theorem main_err {a : Args} {tr : List Event} {e : PyStr}
    (h : main_run a = (tr, Except.error e)) :
    resolvedIssue a.issue a.version = none ∧ tr = [] ∧ e = valueErrorMsg := by
  rcases hres : resolvedIssue a.issue a.version with _ | iss
  · simp only [main_run, hres] at h
    rw [Prod.mk.injEq] at h
    obtain ⟨h1, h2⟩ := h
    injection h2 with h2
    exact ⟨rfl, h1.symm, h2.symm⟩
  · simp only [main_run, hres] at h
    rw [Prod.mk.injEq] at h
    exact absurd h.2 (by simp)

/-- A resolved issue is never the empty string: a truthy supplied issue is
nonempty by truthiness, and every table entry is a nonempty literal. -/
theorem resolvedIssue_ne_nil {i : Option PyStr} {v iss : PyStr}
    (h : resolvedIssue i v = some iss) : iss ≠ [] := by
  unfold resolvedIssue at h
  split at h
  · next htruthy =>
    subst h
    simp only [pyTruthy, Bool.not_eq_true'] at htruthy
    intro hnil
    subst hnil
    simp at htruthy
  · split at h
    · injection h with h; subst h; decide
    · split at h
      · injection h with h; subst h; decide
      · split at h
        · injection h with h; subst h; decide
        · split at h
          · injection h with h; subst h; decide
          · split at h
            · injection h with h; subst h; decide
            · exact Option.noConfusion h

/-- C1: for every version string that starts with one of the five fixed
prefixes, when no `--issue` is supplied, the resolved issue handed to
`lts_issue.print_notes` equals the fixed mapped literal (`"2.83."` maps to
`"#77348"`, `"2.93."` to `"#88449"`, `"3.3."` to `"#100749"`, `"3.6."` to
`"#109399"`, `"4.2."` to `"#124452"`), first match winning in that order. -/
theorem C1_fixed_version_table (v fmt : PyStr) :
    (startswith v (str "2.83.") = true →
      Event.notes v fmt (str "#77348") ∈ (main_run ⟨v, none, fmt⟩).1) ∧
    (startswith v (str "2.93.") = true →
      Event.notes v fmt (str "#88449") ∈ (main_run ⟨v, none, fmt⟩).1) ∧
    (startswith v (str "3.3.") = true →
      Event.notes v fmt (str "#100749") ∈ (main_run ⟨v, none, fmt⟩).1) ∧
    (startswith v (str "3.6.") = true →
      Event.notes v fmt (str "#109399") ∈ (main_run ⟨v, none, fmt⟩).1) ∧
    (startswith v (str "4.2.") = true →
      Event.notes v fmt (str "#124452") ∈ (main_run ⟨v, none, fmt⟩).1) := by
  refine ⟨fun h => ?_, fun h => ?_, fun h => ?_, fun h => ?_, fun h => ?_⟩
  · simp [main_run, resolvedIssue, pyTruthy, h]
  · have n83 := startswith_false_of_startswith (str "2.83.") (str "2.93.") v
      (by decide) (by decide) h
    simp [main_run, resolvedIssue, pyTruthy, h, n83]
  · have n83 := startswith_false_of_startswith (str "2.83.") (str "3.3.") v
      (by decide) (by decide) h
    have n93 := startswith_false_of_startswith (str "2.93.") (str "3.3.") v
      (by decide) (by decide) h
    simp [main_run, resolvedIssue, pyTruthy, h, n83, n93]
  · have n83 := startswith_false_of_startswith (str "2.83.") (str "3.6.") v
      (by decide) (by decide) h
    have n93 := startswith_false_of_startswith (str "2.93.") (str "3.6.") v
      (by decide) (by decide) h
    have n33 := startswith_false_of_startswith (str "3.3.") (str "3.6.") v
      (by decide) (by decide) h
    simp [main_run, resolvedIssue, pyTruthy, h, n83, n93, n33]
  · have n83 := startswith_false_of_startswith (str "2.83.") (str "4.2.") v
      (by decide) (by decide) h
    have n93 := startswith_false_of_startswith (str "2.93.") (str "4.2.") v
      (by decide) (by decide) h
    have n33 := startswith_false_of_startswith (str "3.3.") (str "4.2.") v
      (by decide) (by decide) h
    have n36 := startswith_false_of_startswith (str "3.6.") (str "4.2.") v
      (by decide) (by decide) h
    simp [main_run, resolvedIssue, pyTruthy, h, n83, n93, n33, n36]

/-- Witness for C1 at the concrete input of the spec scenario:
`version = "3.3.2"`, no issue, default format. -/
theorem C1_fixed_version_table_witness :
    startswith (str "3.3.2") (str "3.3.") = true ∧
    Event.notes (str "3.3.2") (str "text") (str "#100749") ∈
      (main_run ⟨ str "3.3.2", none, str "text"⟩).1 :=
  ⟨by decide, (C1_fixed_version_table (str "3.3.2") (str "text")).2.2.1 (by decide)⟩

/-- C2: for every version string matching none of the five prefixes, when no
`--issue` is supplied, `main_run` raises the `ValueError` with an empty trace,
so neither collaborator is invoked. -/
theorem C2_unmapped_version_error (v fmt : PyStr)
    (h83 : startswith v (str "2.83.") = false)
    (h93 : startswith v (str "2.93.") = false)
    (h33 : startswith v (str "3.3.") = false)
    (h36 : startswith v (str "3.6.") = false)
    (h42 : startswith v (str "4.2.") = false) :
    main_run ⟨v, none, fmt⟩ = ([], Except.error valueErrorMsg) := by
  simp [main_run, resolvedIssue, pyTruthy, h83, h93, h33, h36, h42]

/-- Witness for C2 at the concrete input of the spec scenario
`version = "9.9.9"`, no issue. -/
theorem C2_unmapped_version_error_witness :
    main_run ⟨ str "9.9.9", none, str "text"⟩ = ([], Except.error valueErrorMsg) :=
  C2_unmapped_version_error (str "9.9.9") (str "text")
    (by decide) (by decide) (by decide) (by decide) (by decide)

/-- C3: for every version, format and supplied truthy `--issue` value, the
run succeeds and every notes call in the trace carries the supplied issue
verbatim, even when a version prefix would also match the table. -/
theorem C3_explicit_issue_verbatim (v fmt i : PyStr) (h : i ≠ []) :
    (main_run ⟨v, some i, fmt⟩).2 = Except.ok none ∧
    Event.notes v fmt i ∈ (main_run ⟨v, some i, fmt⟩).1 ∧
    (∀ v' f' i', Event.notes v' f' i' ∈ (main_run ⟨v, some i, fmt⟩).1 → i' = i) := by
  rcases i with _ | ⟨c, cs⟩
  · exact absurd rfl h
  · refine ⟨?_, ?_, ?_⟩
    · simp [main_run, resolvedIssue, pyTruthy]
    · simp [main_run, resolvedIssue, pyTruthy]
    · intro v' f' i' hm
      simp only [main_run, resolvedIssue, pyTruthy] at hm
      simp only [List.isEmpty_cons, Bool.not_false, if_true] at hm
      rcases List.mem_append.1 hm with hm | hm
      · split at hm <;> simp_all
      · simp_all

/-- Witness for C3 at the concrete input of the spec scenario
`version = "3.6.0"`, `issue = "#1"`, `format = "html"`. -/
theorem C3_explicit_issue_verbatim_witness :
    (main_run ⟨ str "3.6.0", some (str "#1"), str "html"⟩).2 = Except.ok none ∧
    Event.notes (str "3.6.0") (str "html") (str "#1") ∈
      (main_run ⟨ str "3.6.0", some (str "#1"), str "html"⟩).1 ∧
    (∀ v' f' i',
      Event.notes v' f' i' ∈ (main_run ⟨ str "3.6.0", some (str "#1"), str "html"⟩).1 →
        i' = str "#1") :=
  C3_explicit_issue_verbatim (str "3.6.0") (str "html") (str "#1") (by decide)

/-- C4: on every successful run with format `"html"` the trace is exactly
the `print_urls` call for the version, then one blank line, then the
`print_notes` call; for every other format value the trace contains no
`print_urls` call and no printed line. -/
theorem C4_html_url_block (a : Args) (tr : List Event) (r : Option Int)
    (h : main_run a = (tr, Except.ok r)) :
    (a.format = str "html" →
      ∃ iss, tr = [Event.urls a.version, Event.line [],
        Event.notes a.version a.format iss]) ∧
    (a.format ≠ str "html" →
      (∀ w, Event.urls w ∉ tr) ∧ ∀ s, Event.line s ∉ tr) := by
  obtain ⟨iss, _, _, htr⟩ := main_ok h
  subst htr
  constructor
  · intro hf
    exact ⟨iss, by simp [hf]⟩
  · intro hf
    exact ⟨fun w => by simp [hf], fun s => by simp [hf]⟩

/-- Witness for C4 at a concrete html invocation. -/
theorem C4_html_url_block_witness :
    ∃ iss, ([Event.urls (str "1.0.0"), Event.line [],
      Event.notes (str "1.0.0") (str "html") (str "#5")] : List Event) =
      [Event.urls (str "1.0.0"), Event.line [],
        Event.notes (str "1.0.0") (str "html") iss] :=
  (C4_html_url_block ⟨ str "1.0.0", some (str "#5"), str "html"⟩
    [Event.urls (str "1.0.0"), Event.line [],
      Event.notes (str "1.0.0") (str "html") (str "#5")] none rfl).1 rfl

/-- C5: on every successful invocation, `print_notes` is called exactly once,
with the version, the parsed format (defaulting to `"text"` when `--format`
is absent) and the resolved issue. -/
theorem C5_notes_called_once (v : PyStr) (i fo : Option PyStr)
    (tr : List Event) (r : Option Int)
    (h : main_run (parseArgs v i fo) = (tr, Except.ok r)) :
    (∃ iss, tr.filter isNotes = [Event.notes v (fo.getD (str "text")) iss]) ∧
    (fo = none → (parseArgs v i fo).format = str "text") := by
  refine ⟨?_, fun hfo => by simp [parseArgs, hfo]⟩
  obtain ⟨iss, _, _, htr⟩ := main_ok h
  subst htr
  refine ⟨iss, ?_⟩
  simp only [parseArgs]
  split <;> simp [isNotes]

/-- Witness for C5 at the concrete input of the spec scenario
`version = "4.2.1"`, no issue, default format. -/
theorem C5_notes_called_once_witness :
    (∃ iss, ([Event.notes (str "4.2.1") (str "text") (str "#124452")] :
        List Event).filter isNotes =
      [Event.notes (str "4.2.1") ((none : Option PyStr).getD (str "text")) iss]) ∧
    ((none : Option PyStr) = none →
      (parseArgs (str "4.2.1") none none).format = str "text") :=
  C5_notes_called_once (str "4.2.1") none none
    [Event.notes (str "4.2.1") (str "text") (str "#124452")] none rfl

/-- C6: a format value outside `{text, steam, markdown, html}` is not
validated and causes no failure: with a truthy issue the run succeeds, the
URL branch is skipped, and the unrecognized format reaches `print_notes`
unchanged. -/
theorem C6_unrecognized_format_passthrough (v i fmt : PyStr) (hi : i ≠ [])
    (h1 : fmt ≠ str "text") (h2 : fmt ≠ str "steam")
    (h3 : fmt ≠ str "markdown") (h4 : fmt ≠ str "html") :
    main_run ⟨v, some i, fmt⟩ = ([Event.notes v fmt i], Except.ok none) := by
  rcases i with _ | ⟨c, cs⟩
  · exact absurd rfl hi
  · simp [main_run, resolvedIssue, pyTruthy, h4]

/-- Witness for C6 at the concrete input `version = "1.2.3"`,
`issue = "#7"`, `format = "xml"`. -/
theorem C6_unrecognized_format_passthrough_witness :
    main_run ⟨ str "1.2.3", some (str "#7"), str "xml"⟩ =
      ([Event.notes (str "1.2.3") (str "xml") (str "#7")], Except.ok none) :=
  C6_unrecognized_format_passthrough (str "1.2.3") (str "#7") (str "xml")
    (by decide) (by decide) (by decide) (by decide) (by decide)

/-- C7: every successful run of `main_run` returns Python `None`, which
`sys.exit` at the `__main__` boundary maps to process exit code `0`. -/
theorem C7_success_exit_zero (a : Args) (tr : List Event) (r : Option Int)
    (h : main_run a = (tr, Except.ok r)) :
    (script_run a).2 = Except.ok 0 := by
  obtain ⟨iss, _, hr, _⟩ := main_ok h
  subst hr
  simp [script_run, h, sysExitCode]

/-- Witness for C7 at a concrete successful invocation. -/
theorem C7_success_exit_zero_witness :
    (script_run ⟨ str "2.83.5", none, str "text"⟩).2 = Except.ok 0 :=
  C7_success_exit_zero ⟨ str "2.83.5", none, str "text"⟩
    [Event.notes (str "2.83.5") (str "text") (str "#77348")] none rfl

/-- C8: an empty `--issue` string is falsy in the `if not issue:` test and
behaves exactly like an absent `--issue`: the run is identical to the run
without the flag, and the empty string never reaches `print_notes` as the
issue. -/
theorem C8_empty_issue_like_absent (v fmt : PyStr) :
    main_run ⟨v, some [], fmt⟩ = main_run ⟨v, none, fmt⟩ ∧
    (∀ tr res v' f' i', main_run ⟨v, some [], fmt⟩ = (tr, res) →
      Event.notes v' f' i' ∈ tr → i' ≠ []) := by
  have hsame : resolvedIssue (some []) v = resolvedIssue none v := by
    simp [resolvedIssue, pyTruthy]
  constructor
  · simp only [main_run, hsame]
  · intro tr res v' f' i' heq hmem
    rcases hr : main_run ⟨v, some [], fmt⟩ with ⟨tr0, res0⟩
    rw [hr] at heq
    rw [Prod.mk.injEq] at heq
    obtain ⟨htr, _⟩ := heq
    subst htr
    rcases res0 with e | r
    · obtain ⟨_, htr0, _⟩ := main_err hr
      subst htr0
      exact absurd hmem (by simp)
    · obtain ⟨iss, hres, _, htr0⟩ := main_ok hr
      subst htr0
      have hi : i' = iss := by
        rcases List.mem_append.1 hmem with hm | hm
        · split at hm <;> simp_all
        · simp_all
      subst hi
      exact resolvedIssue_ne_nil hres

/-- Witness for C8 at the concrete input `version = "2.83.1"` with an empty
issue string. -/
theorem C8_empty_issue_like_absent_witness :
    main_run ⟨ str "2.83.1", some [], str "text"⟩ =
      main_run ⟨ str "2.83.1", none, str "text"⟩ ∧
    str "#77348" ≠ [] :=
  ⟨(C8_empty_issue_like_absent (str "2.83.1") (str "text")).1,
   (C8_empty_issue_like_absent (str "2.83.1") (str "text")).2
     [Event.notes (str "2.83.1") (str "text") (str "#77348")] (Except.ok none)
     (str "2.83.1") (str "text") (str "#77348") rfl (by simp)⟩

/-- C9: when `main_run` raises the `ValueError`, the failure is atomic: the
trace is empty, so neither `print_urls` nor `print_notes` was invoked and
nothing was printed before the raise. -/
theorem C9_error_atomic (a : Args) (tr : List Event) (e : PyStr)
    (h : main_run a = (tr, Except.error e)) : tr = [] :=
  (main_err h).2.1

/-- Witness for C9 at the concrete input `version = "9.9.9"`, no issue. -/
theorem C9_error_atomic_witness : ([] : List Event) = [] :=
  C9_error_atomic ⟨ str "9.9.9", none, str "text"⟩ [] valueErrorMsg rfl

/-- C10: `main_run` is deterministic in its arguments: two invocations with
identical version, issue and format values produce identical traces and
identical results. -/
theorem C10_deterministic (a b : Args)
    (hv : a.version = b.version) (hi : a.issue = b.issue)
    (hf : a.format = b.format) : main_run a = main_run b := by
  have hab : a = b := by
    rcases a with ⟨av, ai, af⟩
    rcases b with ⟨bv, bi, bf⟩
    simp_all
  rw [hab]

/-- Witness for C10 at a concrete repeated invocation. -/
theorem C10_deterministic_witness :
    main_run ⟨ str "3.3.2", none, str "text"⟩ =
      main_run ⟨ str "3.3.2", none, str "text"⟩ :=
  C10_deterministic ⟨ str "3.3.2", none, str "text"⟩
    ⟨ str "3.3.2", none, str "text"⟩ rfl rfl rfl
